import Mathlib

/-!
Verification of `pytorch_lightning/core/optimizer.py` (`LightningOptimizer`):
the gradient-accumulation policy, the step dispatcher and the diagnostic
string representation, shallowly embedded in Lean.

Modelling choices:
* The Python trainer (execution context) is passed explicitly to each
  method; its fields are exactly the ones the source reads
  (`batch_idx`, `accumulate_grad_batches`,
  `train_loop._num_training_batches_reached()`, `on_tpu`, `amp_backend`).
* Side effects of `step` are recorded as a trace of events; exceptions are
  the second component of the result, `Option PyError`, with the trace
  holding the events that happened before the raise.
* The backend calls (`xm.optimizer_step`, the precision backend's `step`,
  `optimizer.step`, `zero_grad`, the profiler and ddp-sync scopes) are
  opaque collaborators: each is one trace event carrying the arguments the
  source passes to it.
* Python integers are `Int`; Python `%` is floored modulo, i.e. `Int.fmod`,
  and `x % 0` raises `ZeroDivisionError`.
* Numeric values of a parameter group are modelled as integers; Python's
  `round(n, 12)` on an integer returns the integer unchanged
  (`python_round_int`).
-/

/-- A Python value passed as the `accumulate_grad_batches` constructor
argument: either an `int` or some non-integer object. -/
inductive PyVal where
  | int (n : Int)
  | nonInt
deriving DecidableEq, Repr

/-- The exceptions the embedded code can raise: the bare `assert` on
line 64 (an `AssertionError`, carrying no message), a
`MisconfigurationException` with its message, and `ZeroDivisionError`
from `%` by zero. -/
inductive PyError where
  | assertionError
  | misconfiguration (msg : String)
  | zeroDivisionError
deriving DecidableEq, Repr

/-- The wrapped optimizer, an opaque external collaborator: the wrapper
only reads its class name and its `param_groups` (each group a dict whose
non-`params` entries are numeric; values modelled as `Int`). -/
structure Optimizer where
  class_name : String
  param_groups : List (List (String × Int))
deriving DecidableEq, Repr

/-- The training execution context, with exactly the fields the source
reads at call time. -/
structure Trainer where
  batch_idx : Int
  accumulate_grad_batches : Int
  num_training_batches_reached : Bool
  on_tpu : Bool
  amp_backend : Bool
deriving DecidableEq, Repr

/-- The state `LightningOptimizer.__init__` establishes (lines 69-83);
the mirrored optimizer attributes are represented by the `_optimizer`
reference itself. -/
structure LightningOptimizer where
  _optimizer : Optimizer
  _accumulate_grad_batches : Option Int
  _use_accumulate_grad_batches_from_trainer : Bool
deriving DecidableEq, Repr

/-- `LightningOptimizer.__init__` (lines 60-83): a bare `assert` rejects a
non-integer count, a `MisconfigurationException` naming the value rejects
an integer `< 1`; otherwise the count and the came-from-trainer flag are
recorded. -/
def LightningOptimizer.init (optimizer : Optimizer)
    (accumulate_grad_batches : Option PyVal) :
    Except PyError LightningOptimizer :=
  match accumulate_grad_batches with
  | Option.some PyVal.nonInt => Except.error PyError.assertionError
  | Option.some (PyVal.int n) =>
      if n < 1 then
        Except.error (PyError.misconfiguration
          ("accumulate_grad_batches parameters " ++ toString n ++
            " should be >= 1"))
      else
        Except.ok
          { _optimizer := optimizer
            _accumulate_grad_batches := Option.some n
            _use_accumulate_grad_batches_from_trainer := false }
  | Option.none =>
      Except.ok
        { _optimizer := optimizer
          _accumulate_grad_batches := Option.none
          _use_accumulate_grad_batches_from_trainer := true }

/-- The accumulation window lines 89-92 resolve: the trainer's live value
when none was configured locally, else the locally recorded one (which the
constructor guarantees is present; the `getD 0` default is unreachable
after `init`). -/
def LightningOptimizer.resolvedWindow (o : LightningOptimizer)
    (t : Trainer) : Int :=
  if o._use_accumulate_grad_batches_from_trainer then
    t.accumulate_grad_batches
  else
    o._accumulate_grad_batches.getD 0

/-- `LightningOptimizer._accumulated_batches_reached` (lines 88-93):
`(batch_idx + 1) % accumulate_grad_batches == 0` with Python's floored
`%`, raising `ZeroDivisionError` when the window resolves to 0. -/
def LightningOptimizer._accumulated_batches_reached
    (o : LightningOptimizer) (t : Trainer) : Except PyError Bool :=
  let accumulate_grad_batches := o.resolvedWindow t
  if accumulate_grad_batches = 0 then
    Except.error PyError.zeroDivisionError
  else
    Except.ok (decide (Int.fmod (t.batch_idx + 1) accumulate_grad_batches = 0))

/-- `LightningOptimizer._should_accumulate` (lines 95-100):
`not (accumulation_done or is_final_batch)`. -/
def LightningOptimizer._should_accumulate (o : LightningOptimizer)
    (t : Trainer) : Except PyError Bool := do
  let accumulation_done ← o._accumulated_batches_reached t
  let is_final_batch := t.num_training_batches_reached
  pure (!(accumulation_done || is_final_batch))

/-- Which callable ends up in the local `closure` variable after
lines 208-209: the user's function, or the substituted
`do_nothing_closure`. -/
inductive ClosureKind where
  | user
  | doNothing
deriving DecidableEq, Repr

/-- The `closure` argument of `step`: absent (`None`), a
`types.FunctionType` instance, or some other (non-function) object. -/
inductive ClosureArg where
  | none
  | function
  | nonFunction
deriving DecidableEq, Repr

/-- The callable bound to the local `closure` variable when no
configuration error is raised (line 209 substitutes
`do_nothing_closure` for `None`). -/
def ClosureArg.kind : ClosureArg → ClosureKind
  | ClosureArg.none => ClosureKind.doNothing
  | _ => ClosureKind.user

/-- One observable effect of `step`, carrying the arguments the source
passes to the corresponding collaborator. -/
inductive Event where
  | profileStart (name : String)
  | profileEnd (name : String)
  | xmOptimizerStep (closure : ClosureKind) (kwargs : List (String × Nat))
  | precisionBackendStep (closure : ClosureKind)
  | optimizerStep (closure : ClosureKind) (args : List Nat)
      (kwargs : List (String × Nat))
  | zeroGrad
  | blockDdpSyncStart
  | blockDdpSyncEnd
  | callClosure (closure : ClosureKind)
  | readShouldAccumulate
deriving DecidableEq, Repr

/-- The local variable `profile_name` assigned on line 210: it is set to
`"optimizer_step"` only when no closure was supplied, and is never read
afterwards (the spans use `profiler_name` from line 207). -/
def step_profile_name (closure : ClosureArg) : Option String :=
  if closure = ClosureArg.none then Option.some "optimizer_step"
  else Option.none

/-- `LightningOptimizer.step` (lines 207-239) as a trace transformer:
returns the events performed and, when an exception is raised, the error
(with the trace holding what happened before it).
`Event.readShouldAccumulate` marks line 216 consulting the accumulation
policy. -/
def LightningOptimizer.step (o : LightningOptimizer) (t : Trainer)
    (args : List Nat) (closure : ClosureArg)
    (make_optimizer_step : Option Bool)
    (kwargs : List (String × Nat)) : List Event × Option PyError :=
  let profiler_name := "optimizer_step_and_closure"
  if closure = ClosureArg.nonFunction then
    ([], Option.some (PyError.misconfiguration
      "When closure is provided, it should be a function"))
  else
    let k := closure.kind
    let resolved : List Event × Except PyError Bool :=
      match make_optimizer_step with
      | Option.some b => ([], Except.ok b)
      | Option.none =>
          match o._should_accumulate t with
          | Except.ok sa =>
              ([Event.readShouldAccumulate], Except.ok (!sa))
          | Except.error e =>
              ([Event.readShouldAccumulate], Except.error e)
    match resolved with
    | (pre, Except.error e) => (pre, Option.some e)
    | (pre, Except.ok decision) =>
        if decision then
          let backend :=
            if t.on_tpu then
              [Event.profileStart profiler_name,
               Event.xmOptimizerStep k kwargs,
               Event.profileEnd profiler_name]
            else if t.amp_backend then
              [Event.precisionBackendStep k]
            else
              [Event.profileStart profiler_name,
               Event.optimizerStep k args kwargs,
               Event.profileEnd profiler_name]
          (pre ++ backend ++ [Event.zeroGrad], Option.none)
        else
          (pre ++ [Event.blockDdpSyncStart,
                   Event.profileStart "closure",
                   Event.callClosure k,
                   Event.profileEnd "closure",
                   Event.blockDdpSyncEnd], Option.none)

/-- The branch decision lines 215-216 resolve: the explicit
`make_optimizer_step` when supplied, otherwise
`not self._should_accumulate`. -/
def LightningOptimizer.resolvedDecision (o : LightningOptimizer)
    (t : Trainer) (make_optimizer_step : Option Bool) :
    Except PyError Bool :=
  match make_optimizer_step with
  | Option.some b => Except.ok b
  | Option.none => Except.map (fun sa => !sa) (o._should_accumulate t)

/-- Python string slicing `s[:-n]` (a Python `str` is a sequence of code
points, as is `String.data`); for `n` at least the length the result is
the empty string, as in Python. -/
def pyStrSliceDropRight (s : String) (n : Nat) : String :=
  String.mk (s.data.take (s.data.length - n))

/-- Python's `round(n, 12)` on an `int` returns the `int` unchanged. -/
def python_round_int (n : Int) (_ndigits : Nat) : Int := n

/-- A parameter group's items sorted by key, mirroring
`for key in sorted(group.keys())` followed by `group[key]` (dict keys are
unique, so iterating sorted pairs is equivalent). -/
def sortedByKey (group : List (String × Int)) : List (String × Int) :=
  List.insertionSort (fun a b => a.1 ≤ b.1) group

/-- The body of the `for key in sorted(group.keys())` loop of `__repr__`
(lines 246-248): skip the `params` key, otherwise append
`key=round(value, 12)` and a trailing `", "`. -/
def reprEntryFold (params : String) (kv : String × Int) : String :=
  if kv.1 != "params" then
    params ++ kv.1 ++ "=" ++ toString (python_round_int kv.2 12) ++ ", "
  else params

/-- The `params` local of `__repr__` (lines 245-248): the group's entries
in sorted key order folded through `reprEntryFold`, starting from `''`. -/
def innerParams (group : List (String × Int)) : String :=
  (sortedByKey group).foldl reprEntryFold ""

/-- The body of the `for i, group in enumerate(self.param_groups)` loop of
`__repr__` (lines 243-250): append `'('`, then the group's inner string
sliced by `[:-2]`, then `'),'`. -/
def reprGroupFold (groups : String) (group : List (String × Int)) :
    String :=
  groups ++ "(" ++ pyStrSliceDropRight (innerParams group) 2 ++ "),"

/-- `LightningOptimizer.__repr__` (lines 241-253), translated literally:
groups accumulated onto `"["` by `reprGroupFold`, sliced by `[:-1]`, a
`']'` appended, wrapped in the two class names. -/
def LightningOptimizer.reprStr (o : LightningOptimizer) : String :=
  let groups := o._optimizer.param_groups.foldl reprGroupFold "["
  let groups := pyStrSliceDropRight groups 1 ++ "]"
  "LightningOptimizer(optim=" ++ o._optimizer.class_name ++ ", groups="
    ++ groups ++ ")"

/-- `sep`-separated join, spelling out what "lists the entries separated
by `sep`" means. -/
def joinSep (sep : String) : List String → String
  | [] => ""
  | [p] => p
  | p :: q :: rest => p ++ sep ++ joinSep sep (q :: rest)

/-- Concatenation of a list of strings. -/
def joinAll : List String → String
  | [] => ""
  | s :: rest => s ++ joinAll rest

/-- Modelled from the spec (§4.5): one parameter group is listed as its
non-`params` keys sorted alphabetically, each value rounded to 12 decimal
digits, the `key=value` entries separated by `", "`, in parentheses. -/
def specRenderGroup (group : List (String × Int)) : String :=
  "(" ++ joinSep ", "
    (((sortedByKey group).filter (fun kv => kv.1 != "params")).map
      (fun kv => kv.1 ++ "=" ++ toString (python_round_int kv.2 12)))
    ++ ")"

/-- Modelled from the spec (§4.5): the representation "lists, for each
parameter group, its non-`params` keys sorted alphabetically with numeric
values rounded to a fixed precision (12 decimal digits), plus the wrapped
optimizer's class name": the groups, each rendered by `specRenderGroup`,
comma-separated inside brackets, with the two class names around them. -/
def LightningOptimizer.specReprStr (o : LightningOptimizer) : String :=
  "LightningOptimizer(optim=" ++ o._optimizer.class_name ++ ", groups="
    ++ ("[" ++
        joinSep "," (o._optimizer.param_groups.map specRenderGroup)
        ++ "]") ++ ")"

/-- The events the step branch (lines 221-234) performs: the backend call
selected by the trainer's flags (TPU and default paths inside a
`profiler_name` span, the precision path bare), followed by `zero_grad`. -/
def stepTrace (t : Trainer) (k : ClosureKind) (args : List Nat)
    (kwargs : List (String × Nat)) : List Event :=
  (if t.on_tpu then
    [Event.profileStart "optimizer_step_and_closure",
     Event.xmOptimizerStep k kwargs,
     Event.profileEnd "optimizer_step_and_closure"]
  else if t.amp_backend then
    [Event.precisionBackendStep k]
  else
    [Event.profileStart "optimizer_step_and_closure",
     Event.optimizerStep k args kwargs,
     Event.profileEnd "optimizer_step_and_closure"]) ++ [Event.zeroGrad]

/-- The events the accumulate branch (lines 235-239) performs: the closure
called once, inside the ddp-sync-suspension scope and the `"closure"`
profiling span. -/
def accumulateTrace (k : ClosureKind) : List Event :=
  [Event.blockDdpSyncStart,
   Event.profileStart "closure",
   Event.callClosure k,
   Event.profileEnd "closure",
   Event.blockDdpSyncEnd]

/-- Structural description of `step` for a valid closure: the explicit
`make_optimizer_step` selects the branch directly; otherwise the policy is
consulted once and its negation selects the branch. -/
theorem step_spec (o : LightningOptimizer) (t : Trainer) (args : List Nat)
    (closure : ClosureArg) (mos : Option Bool)
    (kwargs : List (String × Nat)) (hc : closure ≠ ClosureArg.nonFunction) :
    o.step t args closure mos kwargs =
      match mos with
      | Option.some b =>
          (if b then stepTrace t closure.kind args kwargs
           else accumulateTrace closure.kind, Option.none)
      | Option.none =>
          match o._should_accumulate t with
          | Except.ok sa =>
              (Event.readShouldAccumulate ::
                (if sa then accumulateTrace closure.kind
                 else stepTrace t closure.kind args kwargs), Option.none)
          | Except.error e =>
              ([Event.readShouldAccumulate], Option.some e) := by
  unfold LightningOptimizer.step stepTrace accumulateTrace
  rw [if_neg hc]
  cases mos with
  | some b =>
    cases b <;> simp
  | none =>
    cases h : o._should_accumulate t with
    | ok sa => cases sa <;> simp
    | error e => simp

/-- Fixture: a wrapped optimizer. -/
def sgdFixture : Optimizer :=
  { class_name := "SGD", param_groups := [[("lr", 3), ("params", 0)]] }

/-- Fixture: a wrapper with a locally configured window of 3. -/
def optFixture : LightningOptimizer :=
  { _optimizer := sgdFixture
    _accumulate_grad_batches := Option.some 3
    _use_accumulate_grad_batches_from_trainer := false }

/-- Fixture: a trainer at batch index 1, not on the final batch, CPU, no
precision backend. -/
def trainerFixture : Trainer :=
  { batch_idx := 1
    accumulate_grad_batches := 2
    num_training_batches_reached := false
    on_tpu := false
    amp_backend := false }

/-- Fixture: `trainerFixture` on TPU. -/
def tpuTrainerFixture : Trainer := { trainerFixture with on_tpu := true }

/-- Fixture: `trainerFixture` with a precision (AMP) backend. -/
def ampTrainerFixture : Trainer :=
  { trainerFixture with amp_backend := true }

/-- C1: with accumulation window `w = resolvedWindow` (the locally
configured value when supplied, else the trainer's live value) at least 1
and batch index `i`, `_accumulated_batches_reached` returns exactly
`(i + 1) % w == 0`, `_should_accumulate` returns true exactly when
`(i + 1) % w ≠ 0` and the batch is not the final one, and in particular
`_should_accumulate` is false whenever the final-batch flag is set. -/
theorem accumulation_policy (o : LightningOptimizer) (t : Trainer)
    (hw : 1 ≤ o.resolvedWindow t) :
    o._accumulated_batches_reached t =
      Except.ok (decide ((t.batch_idx + 1) % o.resolvedWindow t = 0)) ∧
    o._should_accumulate t =
      Except.ok (decide (¬(t.batch_idx + 1) % o.resolvedWindow t = 0 ∧
        t.num_training_batches_reached = false)) ∧
    (t.num_training_batches_reached = true →
      o._should_accumulate t = Except.ok false) := by
  have h0 : o.resolvedWindow t ≠ 0 := by omega
  have hab : o._accumulated_batches_reached t =
      Except.ok (decide ((t.batch_idx + 1) % o.resolvedWindow t = 0)) := by
    unfold LightningOptimizer._accumulated_batches_reached
    rw [if_neg h0, Int.fmod_eq_emod _ (by omega)]
  refine ⟨hab, ?_, ?_⟩ <;>
    simp only [LightningOptimizer._should_accumulate, hab] <;>
    by_cases hP : (t.batch_idx + 1) % o.resolvedWindow t = 0 <;>
    cases hfin : t.num_training_batches_reached <;>
    simp [hP, hfin]

/-- C1 witness: window 3, batch index 1, not final. -/
theorem accumulation_policy_witness :
    1 ≤ optFixture.resolvedWindow trainerFixture ∧
    (optFixture._accumulated_batches_reached trainerFixture =
      Except.ok (decide ((trainerFixture.batch_idx + 1) %
        optFixture.resolvedWindow trainerFixture = 0)) ∧
    optFixture._should_accumulate trainerFixture =
      Except.ok (decide
        (¬(trainerFixture.batch_idx + 1) %
            optFixture.resolvedWindow trainerFixture = 0 ∧
          trainerFixture.num_training_batches_reached = false)) ∧
    (trainerFixture.num_training_batches_reached = true →
      optFixture._should_accumulate trainerFixture = Except.ok false)) :=
  ⟨by decide, accumulation_policy optFixture trainerFixture (by decide)⟩

/-- Is the result of `init` a `MisconfigurationException`? -/
def isMisconfiguration : Except PyError LightningOptimizer → Bool
  | Except.error (PyError.misconfiguration _) => true
  | _ => false

/-- C2 counterexample: constructing with a non-integer count fails with a
bare `AssertionError` (line 64), not with a configuration error naming the
offending value as the claim states. -/
theorem init_nonint_counterexample :
    LightningOptimizer.init sgdFixture (Option.some PyVal.nonInt) =
      Except.error PyError.assertionError ∧
    isMisconfiguration
      (LightningOptimizer.init sgdFixture (Option.some PyVal.nonInt)) =
      false := by
  constructor <;> rfl

/-- C2 amended: a non-integer count is rejected with an `AssertionError`
(carrying no message); an integer count `n < 1` is rejected with a
configuration error naming `n`; every integer `n ≥ 1` is accepted,
recorded, and used as the window in later decisions, while the trainer's
live value is used exactly when no count was supplied. -/
theorem init_validation (optimizer : Optimizer) (n : Int) :
    LightningOptimizer.init optimizer (Option.some PyVal.nonInt) =
      Except.error PyError.assertionError ∧
    (n < 1 →
      LightningOptimizer.init optimizer (Option.some (PyVal.int n)) =
        Except.error (PyError.misconfiguration
          ("accumulate_grad_batches parameters " ++ toString n ++
            " should be >= 1"))) ∧
    (1 ≤ n → ∀ t : Trainer,
      ∃ o : LightningOptimizer,
        LightningOptimizer.init optimizer (Option.some (PyVal.int n)) =
          Except.ok o ∧
        o._accumulate_grad_batches = Option.some n ∧
        o._use_accumulate_grad_batches_from_trainer = false ∧
        o.resolvedWindow t = n) ∧
    (∀ t : Trainer,
      ∃ o : LightningOptimizer,
        LightningOptimizer.init optimizer Option.none = Except.ok o ∧
        o._use_accumulate_grad_batches_from_trainer = true ∧
        o.resolvedWindow t = t.accumulate_grad_batches) := by
  refine ⟨rfl, ?_, ?_, ?_⟩
  · intro hn
    simp [LightningOptimizer.init, hn]
  · intro hn t
    refine ⟨{ _optimizer := optimizer
              _accumulate_grad_batches := Option.some n
              _use_accumulate_grad_batches_from_trainer := false },
            ?_, rfl, rfl, rfl⟩
    simp [LightningOptimizer.init, show ¬n < 1 by omega]
  · intro t
    exact ⟨_, rfl, rfl, rfl⟩

/-- C2 witness: `n = 0` is rejected with the configuration error naming
it, and `n = 2` is accepted with window 2. -/
theorem init_validation_witness :
    ((0 : Int) < 1 ∧
      LightningOptimizer.init sgdFixture (Option.some (PyVal.int 0)) =
        Except.error (PyError.misconfiguration
          ("accumulate_grad_batches parameters " ++ toString (0 : Int) ++
            " should be >= 1"))) ∧
    ((1 : Int) ≤ 2 ∧
      ∃ o : LightningOptimizer,
        LightningOptimizer.init sgdFixture (Option.some (PyVal.int 2)) =
          Except.ok o ∧
        o._accumulate_grad_batches = Option.some 2 ∧
        o._use_accumulate_grad_batches_from_trainer = false ∧
        o.resolvedWindow trainerFixture = 2) :=
  ⟨⟨by decide, (init_validation sgdFixture 0).2.1 (by decide)⟩,
   ⟨by decide,
    (init_validation sgdFixture 2).2.2.1 (by decide) trainerFixture⟩⟩

/-- C6: calling `step` with a closure that is neither `None` nor a plain
function raises the configuration error of line 213 before any side
effect: the trace is empty, so the closure did not run, the accumulation
decision was not consulted, and no backend step or `zero_grad` happened. -/
theorem step_nonfunction_closure (o : LightningOptimizer) (t : Trainer)
    (args : List Nat) (mos : Option Bool)
    (kwargs : List (String × Nat)) :
    o.step t args ClosureArg.nonFunction mos kwargs =
      ([], Option.some (PyError.misconfiguration
        "When closure is provided, it should be a function")) := by
  unfold LightningOptimizer.step
  rw [if_pos rfl]

/-- C3: with a valid closure, an explicit `make_optimizer_step` alone
selects the branch (true: step branch ending in `zero_grad`; false:
accumulate branch) without consulting the policy, while an absent one
makes the branch `not _should_accumulate`, the policy being consulted
exactly once (one `readShouldAccumulate` event in the trace). -/
theorem step_decision_override (o : LightningOptimizer) (t : Trainer)
    (args : List Nat) (closure : ClosureArg)
    (kwargs : List (String × Nat))
    (hc : closure ≠ ClosureArg.nonFunction) :
    (∀ b : Bool, o.step t args closure (Option.some b) kwargs =
      (if b then stepTrace t closure.kind args kwargs
       else accumulateTrace closure.kind, Option.none)) ∧
    (∀ sa : Bool, o._should_accumulate t = Except.ok sa →
      o.step t args closure Option.none kwargs =
        (Event.readShouldAccumulate ::
          (if sa then accumulateTrace closure.kind
           else stepTrace t closure.kind args kwargs), Option.none)) := by
  constructor
  · intro b
    rw [step_spec o t args closure (Option.some b) kwargs hc]
  · intro sa hsa
    rw [step_spec o t args closure Option.none kwargs hc, hsa]

/-- C3 witness: `make_optimizer_step = some b` forces the branch at the
fixtures, and with it absent the policy (which says accumulate at batch
index 1 with window 3) is consulted once. -/
theorem step_decision_override_witness :
    ClosureArg.function ≠ ClosureArg.nonFunction ∧
    ((∀ b : Bool,
        optFixture.step trainerFixture [] ClosureArg.function
          (Option.some b) [] =
        (if b then stepTrace trainerFixture ClosureArg.function.kind [] []
         else accumulateTrace ClosureArg.function.kind, Option.none)) ∧
    (∀ sa : Bool,
      optFixture._should_accumulate trainerFixture = Except.ok sa →
      optFixture.step trainerFixture [] ClosureArg.function
          Option.none [] =
        (Event.readShouldAccumulate ::
          (if sa then accumulateTrace ClosureArg.function.kind
           else stepTrace trainerFixture ClosureArg.function.kind [] []),
         Option.none))) :=
  ⟨by decide,
   step_decision_override optFixture trainerFixture [] ClosureArg.function
     [] (by decide)⟩

lemma count_zeroGrad_stepTrace (t : Trainer) (k : ClosureKind)
    (args : List Nat) (kwargs : List (String × Nat)) :
    (stepTrace t k args kwargs).count Event.zeroGrad = 1 := by
  unfold stepTrace
  cases t.on_tpu <;> cases t.amp_backend <;> simp [List.count_cons]

lemma getLast_stepTrace (t : Trainer) (k : ClosureKind)
    (args : List Nat) (kwargs : List (String × Nat)) :
    (stepTrace t k args kwargs).getLast? = Option.some Event.zeroGrad := by
  unfold stepTrace
  cases t.on_tpu <;> cases t.amp_backend <;> simp

lemma count_zeroGrad_accumulateTrace (k : ClosureKind) :
    (accumulateTrace k).count Event.zeroGrad = 0 := by
  cases k <;> rfl

/-- C4: when the resolved decision is to take a step, `zero_grad` happens
exactly once and is the last event, i.e. after the chosen backend path;
when the resolved decision is to accumulate, `zero_grad` never happens. -/
theorem step_zero_grad (o : LightningOptimizer) (t : Trainer)
    (args : List Nat) (closure : ClosureArg) (mos : Option Bool)
    (kwargs : List (String × Nat))
    (hc : closure ≠ ClosureArg.nonFunction) :
    (o.resolvedDecision t mos = Except.ok true →
      (o.step t args closure mos kwargs).1.count Event.zeroGrad = 1 ∧
      (o.step t args closure mos kwargs).1.getLast? =
        Option.some Event.zeroGrad) ∧
    (o.resolvedDecision t mos = Except.ok false →
      (o.step t args closure mos kwargs).1.count Event.zeroGrad = 0) := by
  rw [step_spec o t args closure mos kwargs hc]
  cases mos with
  | some b =>
    cases b with
    | true =>
      refine ⟨fun _ => ⟨?_, ?_⟩, fun hf => ?_⟩
      · simpa using count_zeroGrad_stepTrace t closure.kind args kwargs
      · simpa using getLast_stepTrace t closure.kind args kwargs
      · exact absurd hf (by simp [LightningOptimizer.resolvedDecision])
    | false =>
      refine ⟨fun ht => ?_, fun _ => ?_⟩
      · exact absurd ht (by simp [LightningOptimizer.resolvedDecision])
      · simpa using count_zeroGrad_accumulateTrace closure.kind
  | none =>
    cases hsa : o._should_accumulate t with
    | ok sa =>
      have hd : o.resolvedDecision t Option.none = Except.ok (!sa) := by
        simp [LightningOptimizer.resolvedDecision, hsa, Except.map]
      cases sa with
      | true =>
        refine ⟨fun ht => ?_, fun _ => ?_⟩
        · rw [hd] at ht; exact absurd ht (by simp)
        · simp [List.count_cons, count_zeroGrad_accumulateTrace]
      | false =>
        refine ⟨fun _ => ⟨?_, ?_⟩, fun hf => ?_⟩
        · simp [List.count_cons, count_zeroGrad_stepTrace]
        · have h := getLast_stepTrace t closure.kind args kwargs
          cases hst : stepTrace t closure.kind args kwargs with
          | nil => rw [hst] at h; simp at h
          | cons e es =>
            rw [hst] at h
            simp [hst, List.getLast?_cons_cons, h]
        · rw [hd] at hf; exact absurd hf (by simp)
    | error e =>
      have hd : o.resolvedDecision t Option.none = Except.error e := by
        simp [LightningOptimizer.resolvedDecision, hsa, Except.map]
      refine ⟨fun ht => ?_, fun hf => ?_⟩
      · rw [hd] at ht; exact absurd ht (by simp)
      · rw [hd] at hf; exact absurd hf (by simp)

/-- C4 witness: at batch index 1 with window 2 the decision is a step and
`zero_grad` happens once, last. -/
theorem step_zero_grad_witness :
    ClosureArg.function ≠ ClosureArg.nonFunction ∧
    ((optFixture.resolvedDecision tpuTrainerFixture (Option.some true) =
        Except.ok true →
      (optFixture.step tpuTrainerFixture [] ClosureArg.function
          (Option.some true) []).1.count Event.zeroGrad = 1 ∧
      (optFixture.step tpuTrainerFixture [] ClosureArg.function
          (Option.some true) []).1.getLast? =
        Option.some Event.zeroGrad) ∧
    (optFixture.resolvedDecision tpuTrainerFixture (Option.some true) =
        Except.ok false →
      (optFixture.step tpuTrainerFixture [] ClosureArg.function
          (Option.some true) []).1.count Event.zeroGrad = 0)) :=
  ⟨by decide,
   step_zero_grad optFixture tpuTrainerFixture [] ClosureArg.function
     (Option.some true) [] (by decide)⟩

lemma step_of_decision_true (o : LightningOptimizer) (t : Trainer)
    (args : List Nat) (closure : ClosureArg) (mos : Option Bool)
    (kwargs : List (String × Nat))
    (hc : closure ≠ ClosureArg.nonFunction)
    (hd : o.resolvedDecision t mos = Except.ok true) :
    o.step t args closure mos kwargs =
      ((if mos.isSome then ([] : List Event)
        else [Event.readShouldAccumulate]) ++
        stepTrace t closure.kind args kwargs, Option.none) := by
  rw [step_spec o t args closure mos kwargs hc]
  cases mos with
  | some b =>
    have hb : b = true := by
      simpa [LightningOptimizer.resolvedDecision] using hd
    subst hb
    simp
  | none =>
    cases hsa : o._should_accumulate t with
    | ok sa =>
      have hsa0 : sa = false := by
        simpa [LightningOptimizer.resolvedDecision, hsa, Except.map]
          using hd
      subst hsa0
      simp
    | error e =>
      simp [LightningOptimizer.resolvedDecision, hsa, Except.map] at hd

lemma step_of_decision_false (o : LightningOptimizer) (t : Trainer)
    (args : List Nat) (closure : ClosureArg) (mos : Option Bool)
    (kwargs : List (String × Nat))
    (hc : closure ≠ ClosureArg.nonFunction)
    (hd : o.resolvedDecision t mos = Except.ok false) :
    o.step t args closure mos kwargs =
      ((if mos.isSome then ([] : List Event)
        else [Event.readShouldAccumulate]) ++
        accumulateTrace closure.kind, Option.none) := by
  rw [step_spec o t args closure mos kwargs hc]
  cases mos with
  | some b =>
    have hb : b = false := by
      simpa [LightningOptimizer.resolvedDecision] using hd
    subst hb
    simp
  | none =>
    cases hsa : o._should_accumulate t with
    | ok sa =>
      have hsa0 : sa = true := by
        simpa [LightningOptimizer.resolvedDecision, hsa, Except.map]
          using hd
      subst hsa0
      simp
    | error e =>
      simp [LightningOptimizer.resolvedDecision, hsa, Except.map] at hd

/-- C5: when the resolved decision is to accumulate, the closure runs
exactly once, strictly inside the ddp-sync-suspension scope and the
`"closure"` profiling span, and none of the three step backends (in
particular the wrapped optimizer's own `step`) is invoked. -/
theorem step_accumulate_closure (o : LightningOptimizer) (t : Trainer)
    (args : List Nat) (closure : ClosureArg) (mos : Option Bool)
    (kwargs : List (String × Nat))
    (hc : closure ≠ ClosureArg.nonFunction)
    (hd : o.resolvedDecision t mos = Except.ok false) :
    o.step t args closure mos kwargs =
      ((if mos.isSome then ([] : List Event)
        else [Event.readShouldAccumulate]) ++
        accumulateTrace closure.kind, Option.none) ∧
    accumulateTrace closure.kind =
      [Event.blockDdpSyncStart, Event.profileStart "closure",
       Event.callClosure closure.kind, Event.profileEnd "closure",
       Event.blockDdpSyncEnd] ∧
    (o.step t args closure mos kwargs).1.count
      (Event.callClosure closure.kind) = 1 ∧
    (∀ (k : ClosureKind) (a : List Nat) (kw : List (String × Nat)),
      Event.optimizerStep k a kw ∉ (o.step t args closure mos kwargs).1) ∧
    (∀ (k : ClosureKind) (kw : List (String × Nat)),
      Event.xmOptimizerStep k kw ∉ (o.step t args closure mos kwargs).1) ∧
    (∀ k : ClosureKind,
      Event.precisionBackendStep k ∉ (o.step t args closure mos kwargs).1)
    := by
  have hstep := step_of_decision_false o t args closure mos kwargs hc hd
  refine ⟨hstep, rfl, ?_, ?_, ?_, ?_⟩
  · rw [hstep]
    cases mos <;> simp [accumulateTrace, List.count_cons]
  · intro k a kw
    rw [hstep]
    cases mos <;> simp [accumulateTrace]
  · intro k kw
    rw [hstep]
    cases mos <;> simp [accumulateTrace]
  · intro k
    rw [hstep]
    cases mos <;> simp [accumulateTrace]

/-- C5 witness: explicit `make_optimizer_step = false` at the fixtures. -/
theorem step_accumulate_closure_witness :
    ClosureArg.function ≠ ClosureArg.nonFunction ∧
    optFixture.resolvedDecision trainerFixture (Option.some false) =
      Except.ok false ∧
    optFixture.step trainerFixture [] ClosureArg.function
        (Option.some false) [] =
      ((if (Option.some false).isSome then ([] : List Event)
        else [Event.readShouldAccumulate]) ++
        accumulateTrace ClosureArg.function.kind, Option.none) :=
  ⟨by decide, by rfl,
   (step_accumulate_closure optFixture trainerFixture []
     ClosureArg.function (Option.some false) [] (by decide) (by rfl)).1⟩

/-- Is this event the opening of a profiling span? -/
def isProfileStart : Event → Bool
  | Event.profileStart _ => true
  | _ => false

/-- Is this event one of the three backend step calls? -/
def isBackendCall : Event → Bool
  | Event.xmOptimizerStep _ _ => true
  | Event.precisionBackendStep _ => true
  | Event.optimizerStep _ _ _ => true
  | _ => false

/-- C7 counterexample: on the precision (AMP) path, the backend step of
line 227 runs with no profiling span at all, contrary to the claim that
each of the three backend strategies is wrapped in one. -/
theorem step_amp_no_span_counterexample :
    (optFixture.step ampTrainerFixture [] ClosureArg.function
        (Option.some true) []).1 =
      [Event.precisionBackendStep ClosureKind.user, Event.zeroGrad] ∧
    ((optFixture.step ampTrainerFixture [] ClosureArg.function
        (Option.some true) []).1.any isProfileStart) = false := by
  constructor <;> rfl

/-- C7 amended: when the resolved decision is to take a step, exactly one
backend call executes, selected with precedence accelerator-native first,
then precision, then the default local path; the accelerator-native and
default paths run inside a profiling span, while the precision path runs
with no span. -/
theorem step_backend_selection (o : LightningOptimizer) (t : Trainer)
    (args : List Nat) (closure : ClosureArg) (mos : Option Bool)
    (kwargs : List (String × Nat))
    (hc : closure ≠ ClosureArg.nonFunction)
    (hd : o.resolvedDecision t mos = Except.ok true) :
    (o.step t args closure mos kwargs).1 =
      (if mos.isSome then ([] : List Event)
       else [Event.readShouldAccumulate]) ++
        stepTrace t closure.kind args kwargs ∧
    ((stepTrace t closure.kind args kwargs).filter isBackendCall).length
      = 1 ∧
    (t.on_tpu = true →
      stepTrace t closure.kind args kwargs =
        [Event.profileStart "optimizer_step_and_closure",
         Event.xmOptimizerStep closure.kind kwargs,
         Event.profileEnd "optimizer_step_and_closure",
         Event.zeroGrad]) ∧
    (t.on_tpu = false → t.amp_backend = true →
      stepTrace t closure.kind args kwargs =
        [Event.precisionBackendStep closure.kind, Event.zeroGrad] ∧
      (stepTrace t closure.kind args kwargs).any isProfileStart
        = false) ∧
    (t.on_tpu = false → t.amp_backend = false →
      stepTrace t closure.kind args kwargs =
        [Event.profileStart "optimizer_step_and_closure",
         Event.optimizerStep closure.kind args kwargs,
         Event.profileEnd "optimizer_step_and_closure",
         Event.zeroGrad]) := by
  have hstep := step_of_decision_true o t args closure mos kwargs hc hd
  refine ⟨by rw [hstep], ?_, ?_, ?_, ?_⟩ <;>
    cases htpu : t.on_tpu <;> cases hamp : t.amp_backend <;>
    simp [stepTrace, htpu, hamp, isBackendCall, isProfileStart]

/-- C7 witness: forced step on the TPU fixture selects the
accelerator-native path inside its span. -/
theorem step_backend_selection_witness :
    ClosureArg.function ≠ ClosureArg.nonFunction ∧
    optFixture.resolvedDecision tpuTrainerFixture (Option.some true) =
      Except.ok true ∧
    ((optFixture.step tpuTrainerFixture [] ClosureArg.function
        (Option.some true) []).1 =
      (if (Option.some true).isSome then ([] : List Event)
       else [Event.readShouldAccumulate]) ++
        stepTrace tpuTrainerFixture ClosureArg.function.kind [] []) :=
  ⟨by decide, by rfl,
   (step_backend_selection optFixture tpuTrainerFixture []
     ClosureArg.function (Option.some true) [] (by decide) (by rfl)).1⟩

/-- The `(positional args, keyword args)` a backend call event actually
received: `xm.optimizer_step` gets `{'closure': closure, **kwargs}` and no
positional args (line 224), the precision backend gets neither (line 227),
the local `optimizer.step` gets both (line 231). -/
def stepCallPayload : Event → Option (List Nat × List (String × Nat))
  | Event.xmOptimizerStep _ kw => Option.some ([], kw)
  | Event.precisionBackendStep _ => Option.some ([], [])
  | Event.optimizerStep _ a kw => Option.some (a, kw)
  | _ => Option.none

/-- The payloads of all backend step calls in a trace. -/
def backendPayloads (tr : List Event) :
    List (List Nat × List (String × Nat)) :=
  tr.filterMap stepCallPayload

/-- C8 counterexample: a step taken on the accelerator-native path with
positional args `[7]` performs a backend call whose positional args are
`[]` — the supplied args are not forwarded, contrary to the claim that
args and kwargs are forwarded verbatim whichever backend is selected. -/
theorem step_tpu_drops_args_counterexample :
    backendPayloads (optFixture.step tpuTrainerFixture [7]
        ClosureArg.function (Option.some true) []).1 = [([], [])] ∧
    (([], []) : List Nat × List (String × Nat)) ≠ ([7], []) := by
  constructor
  · rfl
  · decide

/-- C8 amended: when a step is taken, exactly one backend call happens
and its payload is: kwargs alone on the accelerator-native path, nothing
on the precision path, and the supplied args and kwargs verbatim on the
default local path. -/
theorem step_args_forwarding (o : LightningOptimizer) (t : Trainer)
    (args : List Nat) (closure : ClosureArg) (mos : Option Bool)
    (kwargs : List (String × Nat))
    (hc : closure ≠ ClosureArg.nonFunction)
    (hd : o.resolvedDecision t mos = Except.ok true) :
    backendPayloads (o.step t args closure mos kwargs).1 =
      [if t.on_tpu then ([], kwargs)
       else if t.amp_backend then ([], [])
       else (args, kwargs)] := by
  have hstep := step_of_decision_true o t args closure mos kwargs hc hd
  rw [hstep]
  cases mos <;> cases htpu : t.on_tpu <;> cases hamp : t.amp_backend <;>
    simp [backendPayloads, stepTrace, htpu, hamp, stepCallPayload]

/-- C8 witness: a forced step on the CPU fixture forwards `[7]` and
`[("a", 1)]` verbatim to the local `optimizer.step`. -/
theorem step_args_forwarding_witness :
    ClosureArg.function ≠ ClosureArg.nonFunction ∧
    optFixture.resolvedDecision trainerFixture (Option.some true) =
      Except.ok true ∧
    backendPayloads (optFixture.step trainerFixture [7]
        ClosureArg.function (Option.some true) [("a", 1)]).1 =
      [if trainerFixture.on_tpu then ([], [("a", 1)])
       else if trainerFixture.amp_backend then ([], [])
       else ([7], [("a", 1)])] :=
  ⟨by decide, by rfl,
   step_args_forwarding optFixture trainerFixture [7] ClosureArg.function
     (Option.some true) [("a", 1)] (by decide) (by rfl)⟩

/-- C10: the profiling span around the accelerator-native and default
step paths is named `"optimizer_step_and_closure"` even when no closure
was supplied; the alternative name `"optimizer_step"` (held by the local
`profile_name`, which is assigned but never read) never names a span. -/
theorem step_span_name (o : LightningOptimizer) (t : Trainer)
    (args : List Nat) (mos : Option Bool)
    (kwargs : List (String × Nat))
    (hd : o.resolvedDecision t mos = Except.ok true)
    (hpath : t.on_tpu = true ∨ t.amp_backend = false) :
    Event.profileStart "optimizer_step_and_closure" ∈
      (o.step t args ClosureArg.none mos kwargs).1 ∧
    Event.profileStart "optimizer_step" ∉
      (o.step t args ClosureArg.none mos kwargs).1 ∧
    Event.profileEnd "optimizer_step" ∉
      (o.step t args ClosureArg.none mos kwargs).1 ∧
    step_profile_name ClosureArg.none = Option.some "optimizer_step" := by
  have hstep := step_of_decision_true o t args ClosureArg.none mos kwargs
    (by decide) hd
  have hne : ("optimizer_step_and_closure" : String) ≠ "optimizer_step" :=
    by decide
  have hnc : ("closure" : String) ≠ "optimizer_step" := by decide
  rw [hstep]
  refine ⟨?_, ?_, ?_, rfl⟩ <;>
    cases mos <;> cases htpu : t.on_tpu <;> cases hamp : t.amp_backend <;>
    simp_all [stepTrace, hne, hne.symm, hnc, hnc.symm]

/-- C10 witness: forced step, no closure, CPU fixture. -/
theorem step_span_name_witness :
    optFixture.resolvedDecision trainerFixture (Option.some true) =
      Except.ok true ∧
    (trainerFixture.on_tpu = true ∨ trainerFixture.amp_backend = false) ∧
    Event.profileStart "optimizer_step_and_closure" ∈
      (optFixture.step trainerFixture [] ClosureArg.none
        (Option.some true) []).1 :=
  ⟨by rfl, by decide,
   (step_span_name optFixture trainerFixture [] (Option.some true) []
     (by rfl) (by decide)).1⟩

lemma joinAll_map_sep (sep : String) (parts : List String)
    (h : parts ≠ []) :
    joinAll (parts.map (fun p => p ++ sep)) = joinSep sep parts ++ sep := by
  induction parts with
  | nil => exact absurd rfl h
  | cons p rest ih =>
    cases rest with
    | nil => simp [joinAll, joinSep]
    | cons q rest2 =>
      have ih2 := ih (by simp)
      simp only [List.map_cons, joinAll, joinSep] at ih2 ⊢
      rw [ih2]
      simp [String.append_assoc]

lemma slice_append (s t : String) (n : Nat) (hn : t.data.length = n) :
    pyStrSliceDropRight (s ++ t) n = s := by
  subst hn
  unfold pyStrSliceDropRight
  rw [String.data_append, List.length_append, Nat.add_sub_cancel,
    List.take_left]

lemma slice_join (sep : String) (n : Nat) (hn : sep.data.length = n)
    (parts : List String) :
    pyStrSliceDropRight (joinAll (parts.map (fun p => p ++ sep))) n =
      joinSep sep parts := by
  cases parts with
  | nil =>
    subst hn
    simp only [List.map_nil]
    show pyStrSliceDropRight "" sep.data.length = ""
    unfold pyStrSliceDropRight
    rw [show ("" : String).data = [] from rfl, List.take_nil]
  | cons p rest =>
    rw [joinAll_map_sep sep (p :: rest) (by simp),
      slice_append _ sep n hn]

lemma innerParams_aux (l : List (String × Int)) (acc : String) :
    l.foldl reprEntryFold acc
    = acc ++ joinAll
        (((l.filter (fun kv => kv.1 != "params")).map
          (fun kv =>
            kv.1 ++ "=" ++ toString (python_round_int kv.2 12))).map
          (fun p => p ++ ", ")) := by
  induction l generalizing acc with
  | nil => simp [joinAll]
  | cons kv rest ih =>
    rw [List.foldl_cons]
    cases h : kv.1 != "params" with
    | false =>
      rw [show reprEntryFold acc kv = acc from by
        simp [reprEntryFold, h]]
      rw [ih]
      simp [List.filter_cons, h]
    | true =>
      rw [show reprEntryFold acc kv =
          acc ++ ((kv.1 ++ "=" ++ toString (python_round_int kv.2 12))
            ++ ", ") from by
        simp [reprEntryFold, h, String.append_assoc]]
      rw [ih]
      simp [List.filter_cons, h, joinAll, String.append_assoc]

/-- `innerParams` is the sorted, filtered `key=value` entries each with a
trailing `", "`, concatenated. -/
lemma innerParams_eq (group : List (String × Int)) :
    innerParams group =
      joinAll
        ((((sortedByKey group).filter (fun kv => kv.1 != "params")).map
          (fun kv =>
            kv.1 ++ "=" ++ toString (python_round_int kv.2 12))).map
          (fun p => p ++ ", ")) := by
  unfold innerParams
  rw [innerParams_aux]
  rw [String.empty_append]

/-- A source-rendered group equals the spec-rendered group. -/
lemma renderGroup_eq (group : List (String × Int)) :
    "(" ++ pyStrSliceDropRight (innerParams group) 2 ++ ")" =
      specRenderGroup group := by
  unfold specRenderGroup
  rw [innerParams_eq, slice_join ", " 2 rfl]

lemma paren_comma_split : ("),": String) = ")" ++ "," := rfl

lemma outer_aux (gs : List (List (String × Int))) (acc : String) :
    gs.foldl reprGroupFold acc
    = acc ++ joinAll
        ((gs.map (fun g =>
          "(" ++ pyStrSliceDropRight (innerParams g) 2 ++ ")")).map
          (fun p => p ++ ",")) := by
  induction gs generalizing acc with
  | nil => simp [joinAll]
  | cons g rest ih =>
    rw [List.foldl_cons, ih]
    simp only [List.map_cons, joinAll, reprGroupFold]
    rw [paren_comma_split]
    simp [String.append_assoc]

lemma slice_bracket (s : String) :
    pyStrSliceDropRight ("[" ++ (s ++ ",")) 1 = "[" ++ s := by
  rw [← String.append_assoc]
  exact slice_append _ "," 1 rfl

/-- C9: for every wrapper with at least one mirrored parameter group, the
source `__repr__` string equals the spec-described representation: each
group in order, non-`params` keys sorted alphabetically, values rounded
to 12 decimal digits, groups comma-separated in brackets, with the
wrapped optimizer's class name included. -/
theorem reprStr_eq_specReprStr (o : LightningOptimizer)
    (h : o._optimizer.param_groups ≠ []) :
    o.reprStr = o.specReprStr := by
  have hmapne : o._optimizer.param_groups.map
      (fun g => "(" ++ pyStrSliceDropRight (innerParams g) 2 ++ ")")
      ≠ [] := by
    simpa using h
  unfold LightningOptimizer.reprStr LightningOptimizer.specReprStr
  dsimp only
  rw [outer_aux, joinAll_map_sep "," _ hmapne, slice_bracket]
  simp only [renderGroup_eq]

/-- C9 witness: the SGD fixture with one group `{lr: 3, params: …}`. -/
theorem reprStr_eq_specReprStr_witness :
    optFixture._optimizer.param_groups ≠ [] ∧
    optFixture.reprStr = optFixture.specReprStr :=
  ⟨by decide, reprStr_eq_specReprStr optFixture (by decide)⟩
